import Mathlib

/-!
Verification of the protein-mcp-server repository (TypeScript) against its
natural-language specification.

The development shallowly embeds the relevant source modules:
* `src/services/protein/core/ProteinService.ts` (orchestrator fallback logic),
* `src/services/protein/providers/rcsb/alignment-service.ts`
  (job submission / polling / `compareStructures`),
* `src/services/protein/providers/rcsb/similarity-service.ts`
  (structure-mode `findSimilar` merge stage),
* `src/services/protein/providers/rcsb/enrichment-service.ts`
  (`parseChainsFromCif`, `fetchStructureFile`),
* `src/mcp-server/tools/definitions/protein-search-structures.tool.ts`.

JavaScript strings are modelled as `List Char` where character-level
operations matter (the mmCIF parser); JS numbers are modelled as `ℚ`
(the claims under study do not depend on floating-point rounding, only on
which expressions are computed); absent (`undefined`) values are `Option`;
code that throws returns `Except`.  Network effects (fetch, the provider
calls, the alignment job service, metadata enrichment) are passed in as
function parameters, so theorems quantify over every possible behaviour of
the remote services.
-/

namespace ProteinMcp

/-! ### Error model

Modelled from the spec: the repository's `McpError` / `JsonRpcErrorCode`
(`src/types-global/errors.ts`, not included under `src/`) as used by the
protein modules.  The spec lists the error kinds: `ValidationError`,
`NotFound`, `ServiceUnavailable`, `InternalError`.  A thrown JS value is
either an `McpError` or some other error carrying a message
(`error instanceof Error ? error.message : String(error)`). -/

inductive JsonRpcErrorCode where
  | validationError
  | notFound
  | serviceUnavailable
  | internalError
deriving DecidableEq, Repr

structure McpError where
  code : JsonRpcErrorCode
  message : String
deriving DecidableEq, Repr

inductive JsError where
  | mcp (e : McpError)
  | other (message : String)
deriving DecidableEq, Repr

/-- The string the source interpolates for a caught error:
`error instanceof Error ? error.message : String(error)`. -/
def JsError.messageOf : JsError → String
  | .mcp e => e.message
  | .other m => m

/-! ### JS string helpers (substring membership, used by error-message claims) -/

/-- `s.startsWith(pat)` on character lists. -/
def startsWithChars : List Char → List Char → Bool
  | _, [] => true
  | [], _ :: _ => false
  | c :: cs, p :: ps => c == p && startsWithChars cs ps

/-- `s.includes(pat)` on character lists: some suffix of `s` starts with `pat`. -/
def hasSubList (pat : List Char) : List Char → Bool
  | [] => startsWithChars [] pat
  | c :: cs => startsWithChars (c :: cs) pat || hasSubList pat cs

/-- `hay.includes(needle)` on strings. -/
def strContains (hay needle : String) : Bool :=
  hasSubList needle.toList hay.toList

/-! ### Orchestrator (`src/services/protein/core/ProteinService.ts`)

The two providers are parameters; the orchestrator is polymorphic in the
request/response payload types exactly as its logic is. -/

/-- `ProteinService.searchStructures` (ProteinService.ts lines 46-80):
try the primary; on error try the fallback; if both fail, throw a
`ServiceUnavailable` error carrying the fallback's message. -/
def ProteinService.searchStructures {P R : Type}
    (primary fallback : P → Except JsError R) (params : P) :
    Except JsError R :=
  match primary params with
  | .ok r => .ok r
  | .error _primaryErr =>
    match fallback params with
    | .ok r => .ok r
    | .error fallbackErr =>
      .error (.mcp ⟨.serviceUnavailable,
        "Protein search failed: " ++ fallbackErr.messageOf⟩)

/-- `ProteinService.getStructure` (ProteinService.ts lines 85-123):
try the primary; on error try the fallback; if both fail, rethrow the
primary error when it is an `McpError`, else throw `ServiceUnavailable`
carrying the primary's message. -/
def ProteinService.getStructure {O R : Type}
    (primary fallback : String → O → Except JsError R)
    (pdbId : String) (options : O) : Except JsError R :=
  match primary pdbId options with
  | .ok r => .ok r
  | .error e =>
    match fallback pdbId options with
    | .ok r => .ok r
    | .error _fallbackErr =>
      match e with
      | .mcp m => .error (.mcp m)
      | .other msg => .error (.mcp ⟨.serviceUnavailable,
          "Failed to fetch structure " ++ pdbId ++ ": " ++ msg⟩)

/-! ### Search tool (`protein-search-structures.tool.ts`) — claim C9

`proteinSearchStructuresLogic` validates the resolution range before
resolving the `ProteinService` and calling `searchStructures`.  The service
is a parameter; the model additionally counts how many times it is invoked
(`0` or `1`), so "zero outbound calls" is expressible. -/

inductive ExperimentalMethod where
  | xray | nmrSolution | electronMicroscopy | neutron | fiber | nmrSolid | model
deriving DecidableEq, Repr

structure SearchToolInput where
  query : String
  organism : Option String
  experimentalMethod : Option ExperimentalMethod
  maxResolution : Option ℚ
  minResolution : Option ℚ
  limit : Nat
  offset : Nat
deriving DecidableEq, Repr

/-- `SearchStructuresParams` from `src/services/protein/types.ts`
(the tool never sets `releaseDate`, so it is omitted from the model). -/
structure SearchStructuresParams where
  query : String
  organism : Option String
  experimentalMethod : Option ExperimentalMethod
  maxResolution : Option ℚ
  minResolution : Option ℚ
  limit : Option Nat
  offset : Option Nat
deriving DecidableEq, Repr

/-- The params object built at tool.ts lines 154-162. -/
def buildSearchParams (input : SearchToolInput) : SearchStructuresParams :=
  { query := input.query
    organism := input.organism
    experimentalMethod := input.experimentalMethod
    maxResolution := input.maxResolution
    minResolution := input.minResolution
    limit := some input.limit
    offset := some input.offset }

/-- `proteinSearchStructuresLogic` (tool.ts lines 131-179).  Returns the
result (or thrown error) paired with the number of provider calls made. -/
def proteinSearchStructuresLogic {R : Type}
    (searchService : SearchStructuresParams → Except JsError R)
    (input : SearchToolInput) : Except JsError R × Nat :=
  match input.minResolution, input.maxResolution with
  | some mn, some mx =>
    if mx < mn then
      (.error (.mcp ⟨.validationError,
        "minResolution cannot be greater than maxResolution"⟩), 0)
    else
      (searchService (buildSearchParams input), 1)
  | _, _ => (searchService (buildSearchParams input), 1)

/-! ### RCSB alignment service (`alignment-service.ts`) — claims C3 and C10

The remote job service is modelled as a function from the poll attempt
number to that poll's observable outcome: an HTTP failure (`!response.ok`,
skipped and retried) or a decoded `AlignmentStatus` body. -/

inductive RcsbJobStatus where
  | running | complete | jobError
deriving DecidableEq, Repr

structure RcsbScore where
  scoreType : String
  value : ℚ
deriving DecidableEq, Repr

structure RcsbAlignmentSummary where
  scores : List RcsbScore
  n_aln_residue_pairs : ℚ
  query_len : ℚ
deriving DecidableEq, Repr

structure RcsbAlignmentResultData where
  summary : RcsbAlignmentSummary
deriving DecidableEq, Repr

structure AlignmentStatusInfo where
  uuid : String
  status : RcsbJobStatus
  message : Option String
deriving DecidableEq, Repr

structure AlignmentStatus where
  info : AlignmentStatusInfo
  results : Option (List RcsbAlignmentResultData)
deriving DecidableEq, Repr

/-- The flattened `RcsbAlignmentResponse` shape.  The three score fields
come from spreading the reduced score map, so they may be absent; the
`'aligned-residues'` and `query_length` fields are set explicitly. -/
structure RcsbAlignmentResponse where
  sequence_identity : Option ℚ
  rmsd : Option ℚ
  tm_score : Option ℚ
  alignedResidues : Option ℚ
  query_length : Option ℚ
deriving DecidableEq, Repr

/-- The score-key normalisation: every dash in `score.type` is replaced
with an underscore (a global regex replace in the source). -/
def replaceDash (s : String) : String :=
  s.map (fun c => if c == '-' then Char.ofNat 95 else c)

/-- The `reduce` at alignment-service lines 622-628: fold the score list
into a string-keyed map, later keys overwriting earlier ones. -/
def setScoreKey (m : List (String × ℚ)) (k : String) (v : ℚ) : List (String × ℚ) :=
  if m.any (fun p => p.1 == k) then
    m.map (fun p => if p.1 == k then (k, v) else p)
  else m ++ [(k, v)]

def reduceScores (l : List RcsbScore) : List (String × ℚ) :=
  l.foldl (fun acc s => setScoreKey acc (replaceDash s.scoreType) s.value) []

def lookupScore (m : List (String × ℚ)) (k : String) : Option ℚ :=
  (m.find? (fun p => p.1 == k)).map (·.2)

/-- The `alignmentResponse` object built on COMPLETE
(alignment-service lines 630-634). -/
def buildAlignmentResponse (summary : RcsbAlignmentSummary) : RcsbAlignmentResponse :=
  let scores := reduceScores summary.scores
  { sequence_identity := lookupScore scores "sequence_identity"
    rmsd := lookupScore scores "rmsd"
    tm_score := lookupScore scores "tm_score"
    alignedResidues := some summary.n_aln_residue_pairs
    query_length := some summary.query_len }

/-- One poll's observable outcome. -/
inductive PollResp where
  | httpNotOk
  | httpOk (st : AlignmentStatus)
deriving DecidableEq, Repr

/-- A poll outcome that is neither COMPLETE-with-nonempty-results nor ERROR
(an HTTP failure, a RUNNING status, or a COMPLETE status without results):
the loop treats it as still-running and retries. -/
def PollResp.isNonTerminal : PollResp → Bool
  | .httpNotOk => true
  | .httpOk st =>
    match st.info.status, st.results with
    | .complete, some (_ :: _) => false
    | .jobError, _ => false
    | _, _ => true

def pollIntervalMs : Nat := 2000

def maxPollAttempts : Nat := 15

/-- The body of `getAlignmentResults` (alignment-service lines 581-666):
`remaining` counts attempts left, `used` attempts performed; the result is
paired with the total number of poll attempts performed. -/
def getAlignmentResultsAux (poll : Nat → PollResp) :
    Nat → Nat → Except McpError RcsbAlignmentResponse × Nat
  | 0, used => (.error ⟨.serviceUnavailable, "Alignment job timed out."⟩, used)
  | remaining + 1, used =>
    match poll used with
    | .httpNotOk => getAlignmentResultsAux poll remaining (used + 1)
    | .httpOk st =>
      match st.info.status, st.results with
      | .complete, some (rd :: _) =>
        (.ok (buildAlignmentResponse rd.summary), used + 1)
      | .jobError, _ =>
        (.error ⟨.serviceUnavailable,
          "Alignment failed: " ++ (st.info.message.getD "undefined")⟩, used + 1)
      | _, _ => getAlignmentResultsAux poll remaining (used + 1)

def getAlignmentResults (poll : Nat → PollResp) :
    Except McpError RcsbAlignmentResponse × Nat :=
  getAlignmentResultsAux poll maxPollAttempts 0

/-! ### `compareStructures` (alignment-service.ts lines 687-796) — claim C10

`alignPairwise` (submission + polling, both remote) is a parameter:
a function of the two ids, the two optional chain selections and the
algorithm name. -/

inductive AlignmentMethod where
  | cealign | tmalign | fatcat
deriving DecidableEq, Repr

def mapAlignmentMethod : AlignmentMethod → String
  | .cealign => "jce"
  | .tmalign => "tm-align"
  | .fatcat => "jfatcat-rigid"

structure ChainSelection where
  pdbId : String
  chain : String
deriving DecidableEq, Repr

structure CompareStructuresParamsM where
  pdbIds : List String
  alignmentMethod : Option AlignmentMethod
  chainSelections : Option (List ChainSelection)
  includeVisualization : Bool
deriving DecidableEq, Repr

structure PairwiseComparison where
  pdbId1 : String
  pdbId2 : String
  rmsd : Option ℚ
  alignedLength : Option ℚ
deriving DecidableEq, Repr

structure AlignmentSummaryResult where
  method : String
  rmsd : Option ℚ
  alignedResidues : Option Int
  sequenceIdentity : Option ℚ
  tmscore : Option ℚ
  queryLength : Option ℚ
deriving DecidableEq, Repr

/-- `CompareStructuresResult` (the `conformationalAnalysis` field is always
`undefined` in this code path and is omitted). -/
structure CompareStructuresResultM where
  alignment : AlignmentSummaryResult
  pairwiseComparisons : List PairwiseComparison
  visualization : Option String
deriving DecidableEq, Repr

/-- `generateVisualizationScript` (alignment-service.ts lines 798-841). -/
def generateVisualizationScript (pdbIds : List String) : String :=
  let colors := ["cyan", "magenta", "yellow", "orange", "green", "blue"]
  let scripts :=
    ["# PyMOL Structural Alignment Visualization Script",
     "# Generated by protein-mcp-server",
     "",
     "# Load structures"]
    ++ pdbIds.map (fun id => "fetch " ++ id ++ ", async=0")
    ++ ["", "# Align structures"]
    ++ (if 2 ≤ pdbIds.length then
          match pdbIds with
          | [] => []
          | first :: restIds =>
            restIds.filterMap (fun second =>
              if first ≠ "" ∧ second ≠ "" then
                some ("align " ++ second ++ ", " ++ first)
              else none)
        else [])
    ++ ["", "# Color structures"]
    ++ pdbIds.enum.filterMap (fun p =>
        let color := (colors.get? (p.1 % colors.length)).getD ""
        if color ≠ "" ∧ p.2 ≠ "" then some ("color " ++ color ++ ", " ++ p.2)
        else none)
    ++ ["", "# Representation", "hide everything", "show cartoon",
        "", "# Center and zoom", "zoom", "center",
        "", "# Run this script in PyMOL: File > Run Script..."]
  String.intercalate "\n" scripts

/-- The index pairs `(i, j)` with `i < j`, visited in the source's nested
loop order. -/
def pairIndexList (n : Nat) : List (Nat × Nat) :=
  (List.range n).flatMap (fun i =>
    ((List.range n).filter (fun j => i < j)).map (fun j => (i, j)))

/-- `(index) => params.chainSelections?.[index]?.chain`
(alignment-service.ts lines 707-708). -/
def getChainForIndex (params : CompareStructuresParamsM) (i : Nat) : Option String :=
  (params.chainSelections.bind (fun l => l.get? i)).map (·.chain)

/-- JS `reduce((sum, x) => sum + x, 0)` over possibly-absent numbers:
any absent (`undefined`) summand poisons the result (NaN). -/
def jsSum (l : List (Option ℚ)) : Option ℚ :=
  l.foldl (fun acc x =>
    match acc, x with
    | some a, some b => some (a + b)
    | _, _ => none) (some 0)

/-- JS `Math.round` (round half up). -/
def jsRound (q : ℚ) : Int := Int.floor (q + 1 / 2)

/-- The successfully aligned pairs collected by the nested loop of
`compareStructures` (lines 714-745): empty or whitespace ids are skipped
(`if (!id1 || !id2) continue`), and a failed alignment is logged and
skipped. -/
def compareOutcomes
    (align : String → String → Option String → Option String → String →
      Except JsError RcsbAlignmentResponse)
    (params : CompareStructuresParamsM) :
    List (String × String × RcsbAlignmentResponse) :=
  let algorithm := mapAlignmentMethod (params.alignmentMethod.getD .cealign)
  (pairIndexList params.pdbIds.length).filterMap (fun p =>
    match params.pdbIds.get? p.1, params.pdbIds.get? p.2 with
    | some id1, some id2 =>
      if id1 = "" ∨ id2 = "" then none
      else
        match align id1 id2 (getChainForIndex params p.1)
            (getChainForIndex params p.2) algorithm with
        | .ok a => some (id1, id2, a)
        | .error _ => none
    | _, _ => none)

/-- `compareStructures` (alignment-service.ts lines 687-796). -/
def compareStructuresRcsb
    (align : String → String → Option String → Option String → String →
      Except JsError RcsbAlignmentResponse)
    (params : CompareStructuresParamsM) :
    Except McpError CompareStructuresResultM :=
  if params.pdbIds.length < 2 then
    .error ⟨.validationError, "At least 2 structures required for comparison"⟩
  else
    let algorithm := mapAlignmentMethod (params.alignmentMethod.getD .cealign)
    let outcomes := compareOutcomes align params
    let pairwiseComparisons : List PairwiseComparison := outcomes.map
      (fun o => ⟨o.1, o.2.1, o.2.2.rmsd, o.2.2.alignedResidues⟩)
    match outcomes.map (fun o => o.2.2) with
    | [] => .error ⟨.serviceUnavailable, "All pairwise alignments failed"⟩
    | firstAlignment :: _ =>
      let avgRmsd := (jsSum (pairwiseComparisons.map (·.rmsd))).map
        (fun s => s / (pairwiseComparisons.length : ℚ))
      let avgAligned := (jsSum (pairwiseComparisons.map (·.alignedLength))).map
        (fun s => s / (pairwiseComparisons.length : ℚ))
      .ok { alignment :=
            { method := algorithm
              rmsd := avgRmsd
              alignedResidues := avgAligned.map jsRound
              sequenceIdentity := firstAlignment.sequence_identity
              tmscore := firstAlignment.tm_score
              queryLength := firstAlignment.query_length },
            pairwiseComparisons := pairwiseComparisons,
            visualization :=
              if params.includeVisualization then
                some (generateVisualizationScript params.pdbIds)
              else none }

/-! ### Structure-mode `findSimilar` merge stage
(similarity-service.ts lines 261-397) — claims C4 and C5

The candidate list is what the RCSB structure search returned; the
per-candidate alignment (`alignPairwise`) and the metadata enrichment
(`enrichSearchResults`) are parameters. -/

structure EnrichedEntry where
  pdbId : String
  title : String
  organism : List String
deriving DecidableEq, Repr

structure SimilaritySummary where
  tmscore : Option ℚ
  rmsd : Option ℚ
  sequenceIdentity : Option ℚ
deriving DecidableEq, Repr

/-- `SimilarityResultEntry`: `coverage` is optional in the interface,
which is what lets the spec speak of it being "omitted"; the merge code
below always supplies it. -/
structure SimilarityResultEntry where
  pdbId : String
  title : String
  organism : List String
  similarity : SimilaritySummary
  alignmentLength : ℚ
  coverage : Option ℚ
deriving DecidableEq, Repr

structure FindSimilarResultModel where
  queryIdentifier : String
  results : List SimilarityResultEntry
  totalCount : Nat
deriving DecidableEq, Repr

/-- The result entry built for one surviving alignment
(similarity-service.ts lines 353-376). -/
def buildSimilarityEntry (pdbId : String) (e : EnrichedEntry)
    (a : RcsbAlignmentResponse) : SimilarityResultEntry :=
  let alignmentLength := a.alignedResidues.getD 0
  let queryLength := a.query_length.getD 0
  { pdbId := pdbId
    title := e.title
    organism := e.organism
    similarity := ⟨a.tm_score, a.rmsd, a.sequence_identity⟩
    alignmentLength := alignmentLength
    coverage := some (if 0 < queryLength ∧ 0 < alignmentLength then
      alignmentLength / queryLength * 100 else 0) }

def tmOf (e : SimilarityResultEntry) : ℚ := e.similarity.tmscore.getD 0

/-- The sort comparator `(a, b) => (b.similarity.tmscore ?? 0) - (a.similarity.tmscore ?? 0)`
(descending by TM-score), as a `Bool`-valued order for a stable sort. -/
def tmDescLe (a b : SimilarityResultEntry) : Bool := decide (tmOf b ≤ tmOf a)

/-- `Math.min(candidateIds.length, params.limit ?? 25, 10)`. -/
def structureSimilarCap (nCandidates : Nat) (limit : Option Nat) : Nat :=
  min (min nCandidates (limit.getD 25)) 10

def exceptIsOk {ε α : Type} : Except ε α → Bool
  | .ok _ => true
  | .error _ => false

/-- The alignment/merge stage of `findStructureSimilar`
(similarity-service.ts lines 261-397), starting from the candidate id list
of the structure search response. -/
def findStructureSimilarMerge
    (queryId : String) (limit : Option Nat) (totalCount : Nat)
    (candidateIds : List String)
    (align : String → Except JsError RcsbAlignmentResponse)
    (enrich : String → Option EnrichedEntry) :
    Except McpError FindSimilarResultModel :=
  let limited := candidateIds.take (structureSimilarCap candidateIds.length limit)
  let successfulAlignments := limited.filterMap (fun id =>
    match align id with
    | .ok a => some (id, a)
    | .error _ => none)
  if successfulAlignments.isEmpty then
    .ok { queryIdentifier := queryId, results := [], totalCount := totalCount }
  else
    let results := (successfulAlignments.filterMap (fun p =>
        (enrich p.1).map (fun e => buildSimilarityEntry p.1 e p.2))).mergeSort tmDescLe
    .ok { queryIdentifier := queryId, results := results, totalCount := totalCount }

/-! ### mmCIF chain parser (`enrichment-service.ts` lines 660-833)
— claims C6, C7, C8

The parser works character-by-character on JS strings, so lines are
`List Char` here.  The JS string primitives (`trim`, `startsWith`,
`split`, regex replaces, the token-matching regex) are modelled below;
`trim` uses the ASCII whitespace characters (the inputs of interest are
ASCII). -/

/-- Line/column tags from the source, as character lists. -/
def hashTag : List Char := String.toList "#"

def loopTag : List Char := String.toList "loop_"

def underscoreTag : List Char := String.toList "_"

def entityPolyTag : List Char := String.toList "_entity_poly."

def strandIdCol : List Char := String.toList "_entity_poly.pdbx_strand_id"

def typeCol : List Char := String.toList "_entity_poly.type"

def seqCol : List Char := String.toList "_entity_poly.pdbx_seq_one_letter_code"

def isJsWs (c : Char) : Bool :=
  c == ' ' || c == '\t' || c == '\n' || c == '\r' ||
  c == Char.ofNat 11 || c == Char.ofNat 12

def ltrimChars (l : List Char) : List Char := l.dropWhile isJsWs

def rtrimChars (l : List Char) : List Char :=
  (l.reverse.dropWhile isJsWs).reverse

/-- JS `String.prototype.trim`. -/
def trimChars (l : List Char) : List Char := rtrimChars (ltrimChars l)

/-- The double-quote character. -/
def quoteD : Char := Char.ofNat 34

/-- The single-quote character. -/
def quoteS : Char := Char.ofNat 39

/-- The `replace` wiping single and double quotes. -/
def stripQuotes (l : List Char) : List Char :=
  l.filter (fun c => !(c == quoteS || c == quoteD))

/-- The `replace` wiping semicolons, quotes and whitespace, applied to the
sequence field. -/
def stripSeqChars (l : List Char) : List Char :=
  l.filter (fun c => !(c == ';' || c == quoteS || c == quoteD || isJsWs c))

/-- Whitespace removal only (used to state what the spec calls "the naive
concatenation with whitespace stripped"). -/
def stripWsChars (l : List Char) : List Char :=
  l.filter (fun c => !isJsWs c)

/-- JS `split(sep)` for a one-character separator (keeps empty pieces). -/
def jsSplitChar (sep : Char) : List Char → List (List Char)
  | [] => [[]]
  | c :: cs =>
    if c = sep then [] :: jsSplitChar sep cs
    else
      match jsSplitChar sep cs with
      | [] => [[c]]
      | h :: t2 => (c :: h) :: t2

/-- `cifData.split('\n')`. -/
def splitLines (l : List Char) : List (List Char) := jsSplitChar '\n' l

/-- Join lines with newlines (to build concrete documents in theorems). -/
def joinNl : List (List Char) → List Char
  | [] => []
  | [l] => l
  | l :: ls => l ++ '\n' :: joinNl ls

/-- A character a bare (unquoted) token chunk may contain: anything but
whitespace and quotes. -/
def isBareChar (c : Char) : Bool := !(isJsWs c || c == quoteD || c == quoteS)

/-- Scan for the closing quote `q`: returns the content before it and the
rest after it, or `none` if the quote is never closed. -/
def splitQuoted (q : Char) : List Char → Option (List Char × List Char)
  | [] => none
  | c :: cs =>
    if c == q then some ([], cs)
    else (splitQuoted q cs).map (fun p => (c :: p.1, p.2))

/-- One match of the row-tokenising regex
(one or more chunks, each a bare run or a quoted segment) at the current
position: returns the matched token (possibly empty, meaning no match) and
the rest of the line. -/
def matchTok : Nat → List Char → List Char × List Char
  | _, [] => ([], [])
  | 0, cs => ([], cs)
  | fuel + 1, c :: cs =>
    if isJsWs c then ([], c :: cs)
    else if c == quoteD || c == quoteS then
      match splitQuoted c cs with
      | none => ([], c :: cs)
      | some (content, rest) =>
        let pr := matchTok fuel rest
        (c :: (content ++ c :: pr.1), pr.2)
    else
      let run := (c :: cs).takeWhile isBareChar
      let rest := (c :: cs).dropWhile isBareChar
      let pr := matchTok fuel rest
      (run ++ pr.1, pr.2)

def tokenizeAux : Nat → List Char → List (List Char)
  | _, [] => []
  | 0, _ => []
  | fuel + 1, c :: cs =>
    let pr := matchTok (c :: cs).length (c :: cs)
    if pr.1 = [] then tokenizeAux fuel cs
    else pr.1 :: tokenizeAux fuel pr.2

/-- `line.match(regex) ?? []`: all tokens of a data line. -/
def tokenizeChars (cs : List Char) : List (List Char) :=
  tokenizeAux cs.length cs

/-- JS `Array.prototype.indexOf` (−1 when absent). -/
def jsIndexOf (x : List Char) : List (List Char) → Int
  | [] => -1
  | y :: ys =>
    if y == x then 0
    else
      let r := jsIndexOf x ys
      if r == -1 then -1 else r + 1

inductive ChainType where
  | protein | dna | rna | ligand | water
deriving DecidableEq, Repr

/-- `mapCifTypeToChainType` (enrichment-service.ts lines 660-672). -/
def mapCifTypeToChainType (ts : List Char) : ChainType :=
  let lowerType := ts.map Char.toLower
  if hasSubList (String.toList "polypeptide") lowerType then .protein
  else if hasSubList (String.toList "polydeoxyribonucleotide") lowerType then .dna
  else if hasSubList (String.toList "polyribonucleotide") lowerType then .rna
  else .ligand

structure Chain where
  id : List Char
  type : ChainType
  sequence : List Char
  length : Nat
deriving DecidableEq, Repr

/-- The mutable state of the data-row loop: the pending `rowData` cells and
the chains collected so far. -/
structure CifRowState where
  rowData : List (List Char)
  chains : List Chain
deriving DecidableEq, Repr

/-- `processRow` (enrichment-service.ts lines 754-773): splice one row's
worth of cells off `rowData`, expand the comma-separated chain-id field,
and push one `Chain` per nonempty id (provided the type cell is nonempty).
The sequence cell, when the column exists and the cell is a nonempty
string, is cleaned of semicolons, quotes and whitespace; the chain length
is the cleaned sequence's length. -/
def processRow (cols : List (List Char)) (idIdx typeIdx seqIdx : Int)
    (st : CifRowState) : CifRowState :=
  let row := st.rowData.take cols.length
  let rest := st.rowData.drop cols.length
  let ids := jsSplitChar ',' (stripQuotes ((row.get? idIdx.toNat).getD []))
  let ty := stripQuotes ((row.get? typeIdx.toNat).getD [])
  let seq :=
    if -1 < seqIdx then
      match row.get? seqIdx.toNat with
      | some sv => if sv = [] then [] else stripSeqChars sv
      | none => []
    else []
  let newChains := ids.filterMap (fun cid =>
    if cid ≠ [] ∧ ty ≠ [] then
      some ⟨cid, mapCifTypeToChainType ty, seq, seq.length⟩
    else none)
  ⟨rest, st.chains ++ newChains⟩

/-- The inner `while` of the semicolon-block branch
(enrichment-service.ts lines 732-742): append trimmed continuation lines
until a line starting with a semicolon; that closing line contributes its
content minus its last character, right-trimmed. -/
def blockAux : List Char → List (List Char) → List Char × List (List Char)
  | seq, [] => (seq, [])
  | seq, l :: ls =>
    if startsWithChars l [';'] then (seq ++ rtrimChars l.dropLast, ls)
    else blockAux (seq ++ trimChars l) ls

/-- The break condition of the data-row loop: a blank line, a comment, a
new `loop_`, or a new tag line. -/
def isRowTerminator (line : List Char) : Bool :=
  line.isEmpty || startsWithChars line hashTag ||
  startsWithChars line loopTag || startsWithChars line underscoreTag

/-- The data-row `for` loop (enrichment-service.ts lines 717-751), with
fuel bounded by the number of remaining lines.  A blank/comment/loop/tag
line flushes a pending partial row and breaks; a semicolon block
contributes one cell; any other line contributes its tokens; whenever at
least a full row of cells is pending, one row is processed. -/
def dataLoop (cols : List (List Char)) (idIdx typeIdx seqIdx : Int) :
    Nat → List (List Char) → CifRowState → CifRowState
  | _, [], st => st
  | 0, _ :: _, st => st
  | fuel + 1, l :: ls, st =>
    let line := trimChars l
    if isRowTerminator line then
      if st.rowData.isEmpty then st else processRow cols idIdx typeIdx seqIdx st
    else
      let step :=
        if startsWithChars line [';'] then
          let pr := blockAux (line.drop 1) ls
          (CifRowState.mk (st.rowData ++ [pr.1]) st.chains, pr.2)
        else
          (CifRowState.mk (st.rowData ++ tokenizeChars line) st.chains, ls)
      let st3 :=
        if cols.length ≤ step.1.rowData.length then
          processRow cols idIdx typeIdx seqIdx step.1
        else step.1
      dataLoop cols idIdx typeIdx seqIdx fuel step.2 st3

/-- Collect the consecutive `_entity_poly.`-prefixed (trimmed) header lines
following a `loop_` line, returning them and the remaining lines. -/
def collectEntityPolyCols : List (List Char) → List (List Char) × List (List Char)
  | [] => ([], [])
  | l :: ls =>
    if startsWithChars (trimChars l) entityPolyTag then
      let pr := collectEntityPolyCols ls
      (trimChars l :: pr.1, pr.2)
    else ([], l :: ls)

/-- The loop-finding phase (enrichment-service.ts lines 686-707): scan for
a `loop_` line directly followed by `_entity_poly.` column headers. -/
def findEntityPolyLoop : List (List Char) → Option (List (List Char) × List (List Char))
  | [] => none
  | l :: ls =>
    let line := trimChars l
    if line.isEmpty then findEntityPolyLoop ls
    else if startsWithChars line loopTag then
      let pr := collectEntityPolyCols ls
      if pr.1.isEmpty then findEntityPolyLoop ls else some pr
    else findEntityPolyLoop ls

/-- `parseChainsFromCif` (enrichment-service.ts lines 677-776), working on
the already-split line list. -/
def parseLinesCif (lines : List (List Char)) : List Chain :=
  match findEntityPolyLoop lines with
  | none => []
  | some pr =>
    let cols := pr.1
    let idIdx := jsIndexOf strandIdCol cols
    let typeIdx := jsIndexOf typeCol cols
    let seqIdx := jsIndexOf seqCol cols
    if idIdx == -1 || typeIdx == -1 then []
    else
      let st := dataLoop cols idIdx typeIdx seqIdx pr.2.length pr.2 ⟨[], []⟩
      let st2 :=
        if cols.length ≤ st.rowData.length then
          processRow cols idIdx typeIdx seqIdx st
        else st
      st2.chains

/-- `parseChainsFromCif` on a JS string. -/
def parseChainsFromCif (s : String) : List Chain :=
  parseLinesCif (splitLines s.toList)

/-! ### `fetchStructureFile` (enrichment-service.ts lines 781-833) -/

inductive StructureFormat where
  | pdb | mmcif | pdbml | json | bcif
deriving DecidableEq, Repr

/-- The `ProteinStructure['structure']` value returned by
`fetchStructureFile` (binary BCIF payloads are represented by their bytes
as an opaque string; the claims under study never inspect `data`). -/
structure StructureData where
  format : StructureFormat
  data : String
  chains : List Chain
deriving DecidableEq, Repr

/-- `fetchStructureFile`: the HTTP download outcome is a parameter (body on
2xx, a `ServiceUnavailable` error otherwise), and so is the chain-parsing
call, which in JS may throw — any such exception is caught, logged, and
leaves the chain list empty. -/
def fetchStructureFile (format : StructureFormat)
    (download : Except McpError String)
    (runParse : String → Except String (List Chain)) :
    Except McpError StructureData :=
  match download with
  | .error e => .error e
  | .ok data =>
    let chains : List Chain :=
      if format = .mmcif then
        match runParse data with
        | .ok cs => cs
        | .error _ => []
      else []
    .ok ⟨format, data, chains⟩

/-! ## Claim theorems and supporting lemmas -/

theorem startsWithChars_refl (s : List Char) : startsWithChars s s = true := by
  induction s with
  | nil => rfl
  | cons c cs ih => simp [startsWithChars, ih]

theorem hasSubList_append_self (xs ys : List Char) :
    hasSubList ys (xs ++ ys) = true := by
  induction xs with
  | nil =>
    cases ys with
    | nil => rfl
    | cons c cs => simp [hasSubList, startsWithChars_refl]
  | cons x xs ih =>
    simp [List.cons_append, hasSubList, ih]

theorem toList_append (a b : String) : (a ++ b).toList = a.toList ++ b.toList := rfl

theorem strContains_append (a b : String) : strContains (a ++ b) b = true := by
  simpa [strContains, toList_append] using
    hasSubList_append_self a.toList b.toList

/-! ### Claims C1 and C2 -/

/-- C1 (counterexample): with a primary that fails with a plain error
"primary down" and a fallback that fails with "fallback down",
`getStructure` raises a `ServiceUnavailable` error whose message carries
the PRIMARY's message and does not contain the fallback's message,
refuting the claim that the synthesized error carries the fallback's
message. -/
theorem getStructure_bothFail_carries_primary_counterexample :
    ProteinService.getStructure
        (fun (_ : String) (_ : Unit) =>
          (Except.error (JsError.other "primary down") : Except JsError Nat))
        (fun _ _ => Except.error (JsError.other "fallback down"))
        "1ABC" () =
      Except.error (JsError.mcp ⟨.serviceUnavailable,
        "Failed to fetch structure 1ABC: primary down"⟩) ∧
    strContains "Failed to fetch structure 1ABC: primary down" "fallback down" = false := by
  constructor
  · rfl
  · decide

/-- C1 (amended): when both the primary and the fallback `getStructure`
attempts fail, the orchestrator rethrows the primary's error verbatim if
it is an `McpError` (so a `NotFound` classification is preserved), and
otherwise raises a single `ServiceUnavailable` error whose message
carries the PRIMARY's error message. -/
theorem getStructure_bothFail_error_spec {O R : Type}
    (primary fallback : String → O → Except JsError R)
    (pdbId : String) (options : O) (e fe : JsError)
    (hp : primary pdbId options = .error e)
    (hf : fallback pdbId options = .error fe) :
    (∀ m, e = .mcp m →
      ProteinService.getStructure primary fallback pdbId options = .error (.mcp m)) ∧
    (∀ msg, e = .other msg →
      ProteinService.getStructure primary fallback pdbId options =
        .error (.mcp ⟨.serviceUnavailable,
          ("Failed to fetch structure " ++ pdbId ++ ": ") ++ msg⟩) ∧
      strContains (("Failed to fetch structure " ++ pdbId ++ ": ") ++ msg) msg = true) := by
  constructor
  · intro m hm
    subst hm
    simp [ProteinService.getStructure, hp, hf]
  · intro msg hm
    subst hm
    refine ⟨?_, strContains_append _ _⟩
    simp [ProteinService.getStructure, hp, hf]

/-- Witness for `getStructure_bothFail_error_spec` at concrete inputs. -/
theorem getStructure_bothFail_error_spec_witness :
    ProteinService.getStructure
        (fun (_ : String) (_ : Unit) =>
          (Except.error (JsError.mcp ⟨.notFound, "no such structure"⟩) : Except JsError Nat))
        (fun _ _ => Except.error (JsError.other "mirror down"))
        "1ABC" () = Except.error (.mcp ⟨.notFound, "no such structure"⟩) := by
  exact (getStructure_bothFail_error_spec
      (fun (_ : String) (_ : Unit) =>
        (Except.error (JsError.mcp ⟨.notFound, "no such structure"⟩) : Except JsError Nat))
      (fun _ _ => Except.error (JsError.other "mirror down"))
      "1ABC" () (.mcp ⟨.notFound, "no such structure"⟩) (.other "mirror down")
      rfl rfl).1 ⟨.notFound, "no such structure"⟩ rfl

/-- C2: for every search parameter value, if the primary `searchStructures`
rejects and the fallback succeeds, the orchestrated call returns exactly the
fallback's result; and if both reject, it raises a `ServiceUnavailable`
error whose message contains the fallback's error message. -/
theorem searchStructures_fallback_spec {P R : Type}
    (primary fallback : P → Except JsError R) (params : P) (e : JsError)
    (hp : primary params = .error e) :
    (∀ r, fallback params = .ok r →
      ProteinService.searchStructures primary fallback params = .ok r) ∧
    (∀ fe, fallback params = .error fe →
      ProteinService.searchStructures primary fallback params =
        .error (.mcp ⟨.serviceUnavailable,
          "Protein search failed: " ++ fe.messageOf⟩) ∧
      strContains ("Protein search failed: " ++ fe.messageOf) fe.messageOf = true) := by
  constructor
  · intro r hf
    simp [ProteinService.searchStructures, hp, hf]
  · intro fe hf
    refine ⟨?_, strContains_append _ _⟩
    simp [ProteinService.searchStructures, hp, hf]

/-- Witness for `searchStructures_fallback_spec` at concrete inputs. -/
theorem searchStructures_fallback_spec_witness :
    ProteinService.searchStructures
        (fun (_ : Unit) => Except.error (JsError.other "primary down"))
        (fun _ => Except.ok (42 : Nat)) () = Except.ok 42 ∧
    ProteinService.searchStructures
        (fun (_ : Unit) =>
          (Except.error (JsError.other "primary down") : Except JsError Nat))
        (fun _ => Except.error (JsError.other "fallback down")) () =
      Except.error (.mcp ⟨.serviceUnavailable, "Protein search failed: fallback down"⟩) := by
  constructor
  · exact (searchStructures_fallback_spec
      (fun (_ : Unit) => Except.error (JsError.other "primary down"))
      (fun _ => Except.ok (42 : Nat)) () (.other "primary down") rfl).1 42 rfl
  · exact ((searchStructures_fallback_spec
      (fun (_ : Unit) =>
        (Except.error (JsError.other "primary down") : Except JsError Nat))
      (fun _ => Except.error (JsError.other "fallback down")) ()
      (.other "primary down") rfl).2 (.other "fallback down") rfl).1

/-- C9: whenever both `minResolution` and `maxResolution` are defined and
`minResolution > maxResolution`, the search tool fails with a
`ValidationError`-classified error and performs zero provider calls. -/
theorem searchTool_resolutionRange_validation {R : Type}
    (searchService : SearchStructuresParams → Except JsError R)
    (input : SearchToolInput) (mn mx : ℚ)
    (hmn : input.minResolution = some mn)
    (hmx : input.maxResolution = some mx)
    (hlt : mx < mn) :
    proteinSearchStructuresLogic searchService input =
      (.error (.mcp ⟨.validationError,
        "minResolution cannot be greater than maxResolution"⟩), 0) := by
  simp [proteinSearchStructuresLogic, hmn, hmx, hlt]

/-- Witness for `searchTool_resolutionRange_validation` at a concrete input. -/
theorem searchTool_resolutionRange_validation_witness :
    proteinSearchStructuresLogic
      (fun (_ : SearchStructuresParams) => (Except.ok 0 : Except JsError Nat))
      { query := "kinase", organism := none, experimentalMethod := none
        maxResolution := some 1, minResolution := some 3, limit := 25, offset := 0 } =
      (.error (.mcp ⟨.validationError,
        "minResolution cannot be greater than maxResolution"⟩), 0) := by
  exact searchTool_resolutionRange_validation
    (fun _ => (Except.ok 0 : Except JsError Nat))
    { query := "kinase", organism := none, experimentalMethod := none
      maxResolution := some 1, minResolution := some 3, limit := 25, offset := 0 }
    3 1 rfl rfl (by norm_num)

theorem getAlignmentResultsAux_skip (poll : Nat → PollResp) (m : Nat) :
    ∀ remaining used, m ≤ remaining →
    (∀ j, j < m → (poll (used + j)).isNonTerminal = true) →
    getAlignmentResultsAux poll remaining used =
      getAlignmentResultsAux poll (remaining - m) (used + m) := by
  induction m with
  | zero => intro remaining used _ _; simp
  | succ m ih =>
    intro remaining used hm hnt
    cases remaining with
    | zero => omega
    | succ r =>
      have h0 : (poll used).isNonTerminal = true := by
        simpa using hnt 0 (Nat.succ_pos m)
      have hstep : getAlignmentResultsAux poll (r + 1) used =
          getAlignmentResultsAux poll r (used + 1) := by
        cases hp : poll used with
        | httpNotOk => simp [getAlignmentResultsAux, hp]
        | httpOk st =>
          rw [hp] at h0
          simp only [getAlignmentResultsAux, hp]
          cases hs : st.info.status with
          | running =>
            cases st.results with
            | none => simp
            | some l => cases l <;> simp
          | complete =>
            cases hr : st.results with
            | none => simp
            | some l =>
              cases l with
              | nil => simp
              | cons rd rest => simp [PollResp.isNonTerminal, hs, hr] at h0
          | jobError => simp [PollResp.isNonTerminal, hs] at h0
      rw [hstep, ih r (used + 1) (Nat.le_of_succ_le_succ hm)
        (fun j hj => by simpa [Nat.add_assoc, Nat.add_comm 1 j] using hnt (j + 1) (by omega))]
      congr 1 <;> omega

/-- C3: the poll loop of `getAlignmentResults` runs on a fixed 2-second
interval (`pollInterval = 2000` ms) with a bound of 15 attempts
(`maxAttempts = 15`); if the first `k - 1` polls are non-terminal and the
`k`-th poll observes COMPLETE with a nonempty result list (`k ≤ 15`), the
COMPLETE score bundle is returned after exactly `k` poll attempts; and if
all 15 polls are non-terminal, a timeout-classified `ServiceUnavailable`
error is raised after exactly 15 attempts. -/
theorem getAlignmentResults_poll_spec :
    (pollIntervalMs = 2000 ∧ maxPollAttempts = 15) ∧
    (∀ (poll : Nat → PollResp) (k : Nat) (st : AlignmentStatus)
        (rd : RcsbAlignmentResultData) (rest : List RcsbAlignmentResultData),
      1 ≤ k → k ≤ 15 →
      (∀ j, j < k - 1 → (poll j).isNonTerminal = true) →
      poll (k - 1) = .httpOk st →
      st.info.status = .complete →
      st.results = some (rd :: rest) →
      getAlignmentResults poll = (.ok (buildAlignmentResponse rd.summary), k)) ∧
    (∀ poll : Nat → PollResp,
      (∀ j, j < 15 → (poll j).isNonTerminal = true) →
      getAlignmentResults poll =
        (.error ⟨.serviceUnavailable, "Alignment job timed out."⟩, 15)) := by
  refine ⟨⟨rfl, rfl⟩, ?_, ?_⟩
  · intro poll k st rd rest hk1 hk15 hnt hpoll hstatus hresults
    have hskip := getAlignmentResultsAux_skip poll (k - 1) maxPollAttempts 0
      (by simp [maxPollAttempts]; omega) (fun j hj => by simpa using hnt j hj)
    rw [getAlignmentResults, hskip]
    have hrem : maxPollAttempts - (k - 1) = (15 - k) + 1 := by
      simp [maxPollAttempts]; omega
    rw [hrem]
    simp only [Nat.zero_add, getAlignmentResultsAux, hpoll, hstatus, hresults]
    congr 1
    omega
  · intro poll hnt
    have hskip := getAlignmentResultsAux_skip poll 15 maxPollAttempts 0
      (by simp [maxPollAttempts]) (fun j hj => by simpa using hnt j hj)
    rw [getAlignmentResults, hskip]
    simp [maxPollAttempts, getAlignmentResultsAux]

/-- Witness for `getAlignmentResults_poll_spec`: a job service returning
RUNNING for the first 3 polls and COMPLETE on the 4th returns the bundle
after 4 attempts; a job service that always returns RUNNING times out with
exactly 15 attempts. -/
theorem getAlignmentResults_poll_spec_witness :
    getAlignmentResults (fun j =>
        if j < 3 then
          .httpOk ⟨⟨"t1", .running, none⟩, none⟩
        else
          .httpOk ⟨⟨"t1", .complete, none⟩,
            some [⟨⟨[⟨"tm-score", 95/100⟩], 120, 150⟩⟩]⟩) =
      (.ok (buildAlignmentResponse ⟨[⟨"tm-score", 95/100⟩], 120, 150⟩), 4) ∧
    getAlignmentResults (fun _ => .httpOk ⟨⟨"t2", .running, none⟩, none⟩) =
      (.error ⟨.serviceUnavailable, "Alignment job timed out."⟩, 15) := by
  constructor
  · exact getAlignmentResults_poll_spec.2.1
      (fun j =>
        if j < 3 then
          .httpOk ⟨⟨"t1", .running, none⟩, none⟩
        else
          .httpOk ⟨⟨"t1", .complete, none⟩,
            some [⟨⟨[⟨"tm-score", 95/100⟩], 120, 150⟩⟩]⟩)
      4 ⟨⟨"t1", .complete, none⟩, some [⟨⟨[⟨"tm-score", 95/100⟩], 120, 150⟩⟩]⟩
      ⟨⟨[⟨"tm-score", 95/100⟩], 120, 150⟩⟩ []
      (by norm_num) (by norm_num)
      (fun j hj => by
        interval_cases j <;> decide)
      (by norm_num) rfl rfl
  · exact getAlignmentResults_poll_spec.2.2
      (fun _ => .httpOk ⟨⟨"t2", .running, none⟩, none⟩)
      (fun _ _ => rfl)

theorem tmDescLe_trans (a b c : SimilarityResultEntry) :
    tmDescLe a b = true → tmDescLe b c = true → tmDescLe a c = true := by
  simp only [tmDescLe, decide_eq_true_eq]
  exact fun h1 h2 => le_trans h2 h1

theorem tmDescLe_total (a b : SimilarityResultEntry) :
    (tmDescLe a b || tmDescLe b a) = true := by
  simp only [tmDescLe, Bool.or_eq_true, decide_eq_true_eq]
  exact le_total (tmOf b) (tmOf a)

theorem sorted_mergeSort_tmDesc (l : List SimilarityResultEntry) :
    List.Sorted (fun a b => tmOf b ≤ tmOf a) (l.mergeSort tmDescLe) := by
  have h := @List.sorted_mergeSort _ tmDescLe tmDescLe_trans tmDescLe_total l
  exact h.imp (fun hab => by simpa [tmDescLe, decide_eq_true_eq] using hab)

theorem length_filterMap_alignOk
    (align : String → Except JsError RcsbAlignmentResponse) (l : List String) :
    (l.filterMap (fun id =>
      match align id with
      | .ok a => some (id, a)
      | .error _ => none)).length
      = (l.filter (fun id => exceptIsOk (align id))).length := by
  induction l with
  | nil => rfl
  | cons x xs ih =>
    cases h : align x <;>
      simp [List.filterMap_cons, List.filter_cons, h, exceptIsOk, ih]

theorem length_filterMap_enrichEntries
    (enrich : String → Option EnrichedEntry)
    (henrich : ∀ id, (enrich id).isSome = true)
    (l : List (String × RcsbAlignmentResponse)) :
    (l.filterMap (fun p =>
      (enrich p.1).map (fun e => buildSimilarityEntry p.1 e p.2))).length
      = l.length := by
  induction l with
  | nil => rfl
  | cons x xs ih =>
    rcases ho : enrich x.1 with _ | b
    · exact absurd (henrich x.1) (by simp [ho])
    · simp [List.filterMap_cons, ho, ih]

/-- C4: in structure-mode `findSimilar`, for every capped candidate batch,
the merge returns (never throws) a result with exactly one ranked entry per
successful alignment — so `k` failures among `N` capped candidates leave
exactly `N - k` results — sorted descending by TM-score; and when every
alignment fails it returns an empty result list instead of an error.
(Hypothesis: metadata enrichment yields an entry for every id; enrichment
dropouts are outside this claim's scope.) -/
theorem findSimilar_partialFailure_spec
    (queryId : String) (limit : Option Nat) (totalCount : Nat)
    (candidateIds : List String)
    (align : String → Except JsError RcsbAlignmentResponse)
    (enrich : String → Option EnrichedEntry)
    (henrich : ∀ id, (enrich id).isSome = true) :
    (∃ res : FindSimilarResultModel,
      findStructureSimilarMerge queryId limit totalCount candidateIds align enrich =
        .ok res ∧
      res.results.length =
        ((candidateIds.take (structureSimilarCap candidateIds.length limit)).filter
          (fun id => exceptIsOk (align id))).length ∧
      List.Sorted (fun a b => tmOf b ≤ tmOf a) res.results) ∧
    ((∀ id ∈ candidateIds.take (structureSimilarCap candidateIds.length limit),
        ∃ e, align id = .error e) →
      findStructureSimilarMerge queryId limit totalCount candidateIds align enrich =
        .ok ⟨queryId, [], totalCount⟩) := by
  constructor
  · set limited := candidateIds.take (structureSimilarCap candidateIds.length limit) with hlim
    by_cases hempty : (limited.filterMap (fun id =>
        match align id with
        | .ok a => some (id, a)
        | .error _ => none)).isEmpty = true
    · refine ⟨⟨queryId, [], totalCount⟩, ?_, ?_, by simp [List.Sorted]⟩
      · simp only [findStructureSimilarMerge, ← hlim, hempty, if_pos]
      · have h0 : (limited.filterMap (fun id =>
            match align id with
            | .ok a => some (id, a)
            | .error _ => none)).length = 0 := by
          simpa [List.isEmpty_iff_length_eq_zero] using hempty
        simpa [length_filterMap_alignOk align limited] using h0.symm
    · refine ⟨⟨queryId,
        ((limited.filterMap (fun id =>
            match align id with
            | .ok a => some (id, a)
            | .error _ => none)).filterMap (fun p =>
          (enrich p.1).map (fun e => buildSimilarityEntry p.1 e p.2))).mergeSort tmDescLe,
        totalCount⟩, ?_, ?_, sorted_mergeSort_tmDesc _⟩
      · simp only [findStructureSimilarMerge, ← hlim, hempty, if_neg, Bool.false_eq_true,
          not_false_iff]
      · simp only [List.length_mergeSort]
        rw [length_filterMap_enrichEntries enrich henrich]
        exact length_filterMap_alignOk align limited
  · intro hfail
    have hempty : ((candidateIds.take (structureSimilarCap candidateIds.length limit)).filterMap
        (fun id =>
          match align id with
          | .ok a => some (id, a)
          | .error _ => none)) = [] := by
      rw [List.filterMap_eq_nil_iff]
      intro id hid
      obtain ⟨e, he⟩ := hfail id hid
      simp [he]
    simp [findStructureSimilarMerge, hempty]

/-- Witness for `findSimilar_partialFailure_spec`: 5 candidates, the
alignments of `C2` and `C4` reject and the other 3 succeed. -/
theorem findSimilar_partialFailure_spec_witness :
    (∃ res : FindSimilarResultModel,
      findStructureSimilarMerge "1ABC" (some 25) 5 ["C1", "C2", "C3", "C4", "C5"]
          (fun id =>
            if id = "C2" ∨ id = "C4" then .error (.other "alignment rejected")
            else .ok ⟨some 30, some 2, some (9/10), some 120, some 150⟩)
          (fun id => some ⟨id, "title", []⟩) = .ok res ∧
      res.results.length =
        ((["C1", "C2", "C3", "C4", "C5"].take
            (structureSimilarCap (List.length ["C1", "C2", "C3", "C4", "C5"]) (some 25))).filter
          (fun id => exceptIsOk (if id = "C2" ∨ id = "C4" then
              (.error (.other "alignment rejected") : Except JsError RcsbAlignmentResponse)
            else .ok ⟨some 30, some 2, some (9/10), some 120, some 150⟩))).length ∧
      List.Sorted (fun a b => tmOf b ≤ tmOf a) res.results) ∧
    ((∀ id ∈ ["C1", "C2", "C3", "C4", "C5"].take
        (structureSimilarCap (List.length ["C1", "C2", "C3", "C4", "C5"]) (some 25)),
        ∃ e, (if id = "C2" ∨ id = "C4" then
            (.error (.other "alignment rejected") : Except JsError RcsbAlignmentResponse)
          else .ok ⟨some 30, some 2, some (9/10), some 120, some 150⟩) = .error e) →
      findStructureSimilarMerge "1ABC" (some 25) 5 ["C1", "C2", "C3", "C4", "C5"]
          (fun id =>
            if id = "C2" ∨ id = "C4" then .error (.other "alignment rejected")
            else .ok ⟨some 30, some 2, some (9/10), some 120, some 150⟩)
          (fun id => some ⟨id, "title", []⟩) = .ok ⟨"1ABC", [], 5⟩) :=
  findSimilar_partialFailure_spec "1ABC" (some 25) 5 ["C1", "C2", "C3", "C4", "C5"]
    (fun id =>
      if id = "C2" ∨ id = "C4" then .error (.other "alignment rejected")
      else .ok ⟨some 30, some 2, some (9/10), some 120, some 150⟩)
    (fun id => some ⟨id, "title", []⟩)
    (fun _ => rfl)

/-- C5 (counterexample): an alignment with `'aligned-residues'` present
(50) but `query_length` absent yields an entry whose `coverage` field is
present with value 0, not omitted — refuting "the coverage field is
omitted from the entry otherwise". -/
theorem findSimilar_coverage_omitted_counterexample :
    (buildSimilarityEntry "2XYZ" ⟨"2XYZ", "a title", []⟩
        ⟨none, none, none, some 50, none⟩).coverage = some 0 ∧
    (buildSimilarityEntry "2XYZ" ⟨"2XYZ", "a title", []⟩
        ⟨none, none, none, some 50, none⟩).coverage ≠ none := by
  constructor
  · rfl
  · simp [buildSimilarityEntry]

/-- C5 (amended): each returned entry's coverage equals
`alignedResidues / queryLength * 100` when both fields are present and
positive, and is present with value `0` (never omitted) in every other
case. -/
theorem findSimilar_coverage_spec (id : String) (e : EnrichedEntry)
    (a : RcsbAlignmentResponse) :
    (∀ al ql, a.alignedResidues = some al → a.query_length = some ql →
      0 < al → 0 < ql →
      (buildSimilarityEntry id e a).coverage = some (al / ql * 100)) ∧
    ((a.query_length.getD 0 ≤ 0 ∨ a.alignedResidues.getD 0 ≤ 0) →
      (buildSimilarityEntry id e a).coverage = some 0) := by
  constructor
  · intro al ql hal hql hpal hpql
    simp [buildSimilarityEntry, hal, hql, if_pos, hpal, hpql]
  · intro hcase
    have hneg : ¬(0 < a.query_length.getD 0 ∧ 0 < a.alignedResidues.getD 0) := by
      rcases hcase with h | h
      · exact fun hc => absurd hc.1 (not_lt.mpr h)
      · exact fun hc => absurd hc.2 (not_lt.mpr h)
    simp [buildSimilarityEntry, if_neg hneg]

/-- Witness for `findSimilar_coverage_spec`: 120 aligned residues over a
query of length 150 gives coverage 80. -/
theorem findSimilar_coverage_spec_witness :
    (buildSimilarityEntry "1ABC" ⟨"1ABC", "a title", []⟩
        ⟨none, none, none, some 120, some 150⟩).coverage = some 80 := by
  have h := (findSimilar_coverage_spec "1ABC" ⟨"1ABC", "a title", []⟩
      ⟨none, none, none, some 120, some 150⟩).1 120 150 rfl rfl
      (by norm_num) (by norm_num)
  rw [h]
  norm_num

/-- C10: for every `compareStructures` call with at least 2 PDB ids, if
every pairwise alignment fails, the operation raises a `ServiceUnavailable`
error "All pairwise alignments failed" — unlike structure-mode
`findSimilar`, which returns an empty result set in the analogous
all-failed case (second conjunct). -/
theorem compareStructures_allFail_throws
    (align : String → String → Option String → Option String → String →
      Except JsError RcsbAlignmentResponse)
    (params : CompareStructuresParamsM)
    (h2 : 2 ≤ params.pdbIds.length)
    (hfail : ∀ id1 id2 c1 c2 alg, ∃ e, align id1 id2 c1 c2 alg = .error e) :
    compareStructuresRcsb align params =
      .error ⟨.serviceUnavailable, "All pairwise alignments failed"⟩ ∧
    (∀ (queryId : String) (limit : Option Nat) (totalCount : Nat)
        (candidateIds : List String)
        (alignOne : String → Except JsError RcsbAlignmentResponse)
        (enrich : String → Option EnrichedEntry),
      (∀ id, ∃ e, alignOne id = .error e) →
      findStructureSimilarMerge queryId limit totalCount candidateIds alignOne enrich =
        .ok ⟨queryId, [], totalCount⟩) := by
  constructor
  · have houtcomes : compareOutcomes align params = [] := by
      unfold compareOutcomes
      rw [List.filterMap_eq_nil_iff]
      intro p _
      rcases hg1 : params.pdbIds.get? p.1 with _ | id1
      · simp
      · rcases hg2 : params.pdbIds.get? p.2 with _ | id2
        · simp
        · by_cases hid : id1 = "" ∨ id2 = ""
          · simp [hid]
          · obtain ⟨e, he⟩ := hfail id1 id2
              (getChainForIndex params p.1) (getChainForIndex params p.2)
              (mapAlignmentMethod (params.alignmentMethod.getD .cealign))
            simp only [if_neg hid, he]
    simp [compareStructuresRcsb, houtcomes, Nat.not_lt.mpr h2]
  · intro queryId limit totalCount candidateIds alignOne enrich hfailOne
    have hempty : ((candidateIds.take
        (structureSimilarCap candidateIds.length limit)).filterMap
        (fun id =>
          match alignOne id with
          | .ok a => some (id, a)
          | .error _ => none)) = [] := by
      rw [List.filterMap_eq_nil_iff]
      intro id _
      obtain ⟨e, he⟩ := hfailOne id
      simp [he]
    simp [findStructureSimilarMerge, hempty]

/-- Witness for `compareStructures_allFail_throws` at concrete inputs. -/
theorem compareStructures_allFail_throws_witness :
    compareStructuresRcsb
        (fun _ _ _ _ _ => .error (.other "alignment submission failed"))
        { pdbIds := ["1ABC", "2XYZ"], alignmentMethod := none,
          chainSelections := none, includeVisualization := false } =
      .error ⟨.serviceUnavailable, "All pairwise alignments failed"⟩ :=
  (compareStructures_allFail_throws
    (fun _ _ _ _ _ => .error (.other "alignment submission failed"))
    { pdbIds := ["1ABC", "2XYZ"], alignmentMethod := none,
      chainSelections := none, includeVisualization := false }
    (by norm_num)
    (fun _ _ _ _ _ => ⟨.other "alignment submission failed", rfl⟩)).1

theorem collectEntityPolyCols_eq_nil (ls : List (List Char))
    (h : startsWithChars (trimChars ((ls.get? 0).getD []))
      entityPolyTag = false) :
    collectEntityPolyCols ls = ([], ls) := by
  cases ls with
  | nil => rfl
  | cons l ls2 =>
    have h' : startsWithChars (trimChars l) entityPolyTag = false := h
    simp only [collectEntityPolyCols, h']
    simp

theorem findEntityPolyLoop_eq_none (lines : List (List Char))
    (h : ∀ i, i < lines.length →
      ¬(startsWithChars (trimChars ((lines.get? i).getD []))
          loopTag = true ∧
        startsWithChars (trimChars ((lines.get? (i + 1)).getD []))
          entityPolyTag = true)) :
    findEntityPolyLoop lines = none := by
  induction lines with
  | nil => rfl
  | cons l ls ih =>
    have hshift : ∀ i, i < ls.length →
        ¬(startsWithChars (trimChars ((ls.get? i).getD []))
            loopTag = true ∧
          startsWithChars (trimChars ((ls.get? (i + 1)).getD []))
            entityPolyTag = true) :=
      fun i hi => h (i + 1) (Nat.succ_lt_succ hi)
    have hrec := ih hshift
    by_cases hemp : (trimChars l).isEmpty = true
    · simp only [findEntityPolyLoop, hemp]
      simpa using hrec
    · by_cases hloop : startsWithChars (trimChars l) loopTag = true
      · by_cases hnext : startsWithChars (trimChars ((ls.get? 0).getD []))
            entityPolyTag = true
        · have h0 : ¬(startsWithChars (trimChars l) loopTag = true ∧
              startsWithChars (trimChars ((ls.get? 0).getD []))
                entityPolyTag = true) :=
            h 0 (Nat.succ_pos _)
          exact absurd ⟨hloop, hnext⟩ h0
        · rw [Bool.not_eq_true] at hnext
          have hcol := collectEntityPolyCols_eq_nil ls hnext
          simp only [findEntityPolyLoop, hemp, hloop, hcol]
          simpa using hrec
      · rw [Bool.not_eq_true] at hloop
        simp only [findEntityPolyLoop, hemp, hloop]
        simpa using hrec

/-- C8: (i) for every input text in which no `loop_` line is directly
followed by an `_entity_poly.` column header, `parseChainsFromCif` returns
the empty chain list (and, being a total function, raises no error); and
(ii) in `fetchStructureFile`, a chain-parsing exception is caught, so the
fetch still returns a successful result whose chain list is empty. -/
theorem cif_parser_degrades_to_empty :
    (∀ s : String,
      (∀ i, i < (splitLines s.toList).length →
        ¬(startsWithChars (trimChars (((splitLines s.toList).get? i).getD []))
            loopTag = true ∧
          startsWithChars (trimChars (((splitLines s.toList).get? (i + 1)).getD []))
            entityPolyTag = true)) →
      parseChainsFromCif s = []) ∧
    (∀ (format : StructureFormat) (body msg : String),
      fetchStructureFile format (.ok body) (fun _ => .error msg) =
        .ok ⟨format, body, []⟩) := by
  constructor
  · intro s hs
    unfold parseChainsFromCif parseLinesCif
    rw [findEntityPolyLoop_eq_none _ hs]
  · intro format body msg
    cases format <;> rfl

/-- Witness for `cif_parser_degrades_to_empty` at concrete inputs. -/
theorem cif_parser_degrades_to_empty_witness :
    parseChainsFromCif "data_TEST\n_cell.length_a   58.39\n#" = [] ∧
    fetchStructureFile .mmcif (.ok "garbage bytes")
        (fun _ => .error "Unexpected token") =
      .ok ⟨.mmcif, "garbage bytes", []⟩ := by
  constructor
  · refine cif_parser_degrades_to_empty.1 "data_TEST\n_cell.length_a   58.39\n#" ?_
    intro i hi
    have hlen : (splitLines ("data_TEST\n_cell.length_a   58.39\n#").toList).length = 3 := by
      decide
    rw [hlen] at hi
    interval_cases i <;> decide
  · exact cif_parser_degrades_to_empty.2 .mmcif "garbage bytes" "Unexpected token"

theorem startsWithChars_false_of_head (s : List Char) (c : Char) (rest : List Char)
    (h : startsWithChars s [c] = false) : startsWithChars s (c :: rest) = false := by
  cases s with
  | nil => rfl
  | cons a as =>
    have hac : (a == c) = false := by simpa [startsWithChars] using h
    simp [startsWithChars, hac]

theorem splitLines_no_nl (l : List Char) (h : '\n' ∉ l) :
    jsSplitChar '\n' l = [l] := by
  induction l with
  | nil => rfl
  | cons c cs ih =>
    have hc : ¬c = '\n' := fun hc => h (hc ▸ List.mem_cons_self c cs)
    have hcs : '\n' ∉ cs := fun hm => h (List.mem_cons_of_mem _ hm)
    simp [jsSplitChar, hc, ih hcs]

theorem splitLines_append_nl (l r : List Char) (h : '\n' ∉ l) :
    jsSplitChar '\n' (l ++ '\n' :: r) = l :: jsSplitChar '\n' r := by
  induction l with
  | nil => simp [jsSplitChar]
  | cons c cs ih =>
    have hc : ¬c = '\n' := fun hc => h (hc ▸ List.mem_cons_self c cs)
    have hcs : '\n' ∉ cs := fun hm => h (List.mem_cons_of_mem _ hm)
    simp [jsSplitChar, hc, ih hcs]

theorem splitLines_joinNl_cons (l : List Char) (m : List Char) (ms : List (List Char))
    (h : '\n' ∉ l) :
    splitLines (joinNl (l :: m :: ms)) = l :: splitLines (joinNl (m :: ms)) :=
  splitLines_append_nl l (joinNl (m :: ms)) h

theorem collect_cons_true (l : List Char) (ls : List (List Char))
    (h : startsWithChars (trimChars l) entityPolyTag = true) :
    collectEntityPolyCols (l :: ls) =
      (trimChars l :: (collectEntityPolyCols ls).1, (collectEntityPolyCols ls).2) := by
  simp [collectEntityPolyCols, h]

theorem find_cons_loopTrue (l : List Char) (ls : List (List Char))
    (h1 : (trimChars l).isEmpty = false)
    (h2 : startsWithChars (trimChars l) loopTag = true)
    (h3 : (collectEntityPolyCols ls).1.isEmpty = false) :
    findEntityPolyLoop (l :: ls) = some (collectEntityPolyCols ls) := by
  simp [findEntityPolyLoop, h1, h2, h3]

theorem dataLoop_cons_break (cols : List (List Char)) (i t s : Int) (fuel : Nat)
    (l : List Char) (ls : List (List Char)) (st : CifRowState)
    (hfuel : fuel ≠ 0)
    (h : isRowTerminator (trimChars l) = true) :
    dataLoop cols i t s fuel (l :: ls) st =
      if st.rowData.isEmpty then st else processRow cols i t s st := by
  cases fuel with
  | zero => exact absurd rfl hfuel
  | succ f => simp [dataLoop, h]

theorem dataLoop_cons_tokens (cols : List (List Char)) (i t s : Int) (fuel : Nat)
    (l : List Char) (ls : List (List Char)) (st : CifRowState)
    (hfuel : fuel ≠ 0)
    (h1 : isRowTerminator (trimChars l) = false)
    (h2 : startsWithChars (trimChars l) [';'] = false) :
    dataLoop cols i t s fuel (l :: ls) st =
      dataLoop cols i t s (fuel - 1) ls
        (if cols.length ≤ (st.rowData ++ tokenizeChars (trimChars l)).length then
          processRow cols i t s ⟨st.rowData ++ tokenizeChars (trimChars l), st.chains⟩
        else ⟨st.rowData ++ tokenizeChars (trimChars l), st.chains⟩) := by
  cases fuel with
  | zero => exact absurd rfl hfuel
  | succ f => simp [dataLoop, h1, h2]

theorem dataLoop_cons_block (cols : List (List Char)) (i t s : Int) (fuel : Nat)
    (l : List Char) (ls : List (List Char)) (st : CifRowState)
    (hfuel : fuel ≠ 0)
    (h1 : isRowTerminator (trimChars l) = false)
    (h2 : startsWithChars (trimChars l) [';'] = true) :
    dataLoop cols i t s fuel (l :: ls) st =
      dataLoop cols i t s (fuel - 1) (blockAux ((trimChars l).drop 1) ls).2
        (if cols.length ≤
            (st.rowData ++ [(blockAux ((trimChars l).drop 1) ls).1]).length then
          processRow cols i t s
            ⟨st.rowData ++ [(blockAux ((trimChars l).drop 1) ls).1], st.chains⟩
        else ⟨st.rowData ++ [(blockAux ((trimChars l).drop 1) ls).1], st.chains⟩) := by
  cases fuel with
  | zero => exact absurd rfl hfuel
  | succ f => simp [dataLoop, h1, h2]

/-- C6: for every mmCIF document whose `_entity_poly` loop holds one data
row whose chain-id cell is `A,B` (tokens: an entity id `d`, a type cell
`t`, a sequence cell `s`, and the strand cell), `parseChainsFromCif`
returns exactly two `Chain` entries with ids `A` and `B`, the same mapped
type, the same cleaned sequence, and length equal to the cleaned
sequence's length (nothing is read from any length field). -/
theorem parseChains_multiChain_row_spec
    (d t s ld : List Char)
    (h0 : trimChars ld = ld)
    (h1 : ld.isEmpty = false)
    (h2 : startsWithChars ld hashTag = false)
    (h3 : startsWithChars ld loopTag = false)
    (h4 : startsWithChars ld underscoreTag = false)
    (h5 : startsWithChars ld [';'] = false)
    (h6 : tokenizeChars ld = [d, t, s, ['A', ',', 'B']])
    (h7 : stripQuotes t ≠ [])
    (h8 : s ≠ [])
    (h9 : '\n' ∉ ld) :
    parseChainsFromCif (String.mk (joinNl
      [String.toList "loop_",
       String.toList "_entity_poly.entity_id",
       String.toList "_entity_poly.type",
       String.toList "_entity_poly.pdbx_seq_one_letter_code",
       String.toList "_entity_poly.pdbx_strand_id",
       ld,
       String.toList "#"])) =
      [⟨['A'], mapCifTypeToChainType (stripQuotes t), stripSeqChars s,
        (stripSeqChars s).length⟩,
       ⟨['B'], mapCifTypeToChainType (stripQuotes t), stripSeqChars s,
        (stripSeqChars s).length⟩] := by
  have hldstop : startsWithChars (trimChars ld) entityPolyTag = false := by
    rw [h0, show entityPolyTag = '_' :: String.toList "entity_poly." from by decide]
    refine startsWithChars_false_of_head ld '_' _ ?_
    rw [show (['_'] : List Char) = underscoreTag from by decide]
    exact h4
  have hsplit : splitLines (joinNl
      [String.toList "loop_",
       String.toList "_entity_poly.entity_id",
       String.toList "_entity_poly.type",
       String.toList "_entity_poly.pdbx_seq_one_letter_code",
       String.toList "_entity_poly.pdbx_strand_id",
       ld,
       String.toList "#"]) =
      [String.toList "loop_",
       String.toList "_entity_poly.entity_id",
       String.toList "_entity_poly.type",
       String.toList "_entity_poly.pdbx_seq_one_letter_code",
       String.toList "_entity_poly.pdbx_strand_id",
       ld,
       String.toList "#"] := by
    rw [splitLines_joinNl_cons _ _ _ (by decide),
        splitLines_joinNl_cons _ _ _ (by decide),
        splitLines_joinNl_cons _ _ _ (by decide),
        splitLines_joinNl_cons _ _ _ (by decide),
        splitLines_joinNl_cons _ _ _ (by decide),
        splitLines_joinNl_cons _ _ _ h9,
        show splitLines (joinNl [String.toList "#"]) = [String.toList "#"] from by decide]
  have hcol : collectEntityPolyCols
      [String.toList "_entity_poly.entity_id",
       String.toList "_entity_poly.type",
       String.toList "_entity_poly.pdbx_seq_one_letter_code",
       String.toList "_entity_poly.pdbx_strand_id",
       ld,
       String.toList "#"] =
      ([String.toList "_entity_poly.entity_id",
        String.toList "_entity_poly.type",
        String.toList "_entity_poly.pdbx_seq_one_letter_code",
        String.toList "_entity_poly.pdbx_strand_id"],
       [ld, String.toList "#"]) := by
    rw [collect_cons_true _ _ (by decide), collect_cons_true _ _ (by decide),
        collect_cons_true _ _ (by decide), collect_cons_true _ _ (by decide),
        collectEntityPolyCols_eq_nil [ld, String.toList "#"] hldstop]
    simp only [Prod.mk.injEq]
    exact ⟨by decide, trivial⟩
  have hfind : findEntityPolyLoop
      [String.toList "loop_",
       String.toList "_entity_poly.entity_id",
       String.toList "_entity_poly.type",
       String.toList "_entity_poly.pdbx_seq_one_letter_code",
       String.toList "_entity_poly.pdbx_strand_id",
       ld,
       String.toList "#"] =
      some ([String.toList "_entity_poly.entity_id",
        String.toList "_entity_poly.type",
        String.toList "_entity_poly.pdbx_seq_one_letter_code",
        String.toList "_entity_poly.pdbx_strand_id"],
       [ld, String.toList "#"]) := by
    rw [find_cons_loopTrue _ _ (by decide) (by decide) (by rw [hcol]; rfl), hcol]
  have hterm : isRowTerminator (trimChars ld) = false := by
    rw [h0]
    simp [isRowTerminator, h1, h2, h3, h4]
  have hsemi : startsWithChars (trimChars ld) [';'] = false := by rw [h0]; exact h5
  have hrow : processRow
      [String.toList "_entity_poly.entity_id",
       String.toList "_entity_poly.type",
       String.toList "_entity_poly.pdbx_seq_one_letter_code",
       String.toList "_entity_poly.pdbx_strand_id"] 3 1 2
      ⟨[d, t, s, ['A', ',', 'B']], []⟩ =
      ⟨[], [⟨['A'], mapCifTypeToChainType (stripQuotes t), stripSeqChars s,
        (stripSeqChars s).length⟩,
       ⟨['B'], mapCifTypeToChainType (stripQuotes t), stripSeqChars s,
        (stripSeqChars s).length⟩]⟩ := by
    simp only [processRow, List.take, List.drop, List.get?, Option.getD,
      List.length_cons, List.length_nil]
    rw [show jsSplitChar ',' (stripQuotes (['A', ',', 'B'] : List Char)) =
      [['A'], ['B']] from by decide]
    simp [List.filterMap, h7, h8, show ((-1 : Int) < 2) from by decide]
  have hloop2 : dataLoop
      [String.toList "_entity_poly.entity_id",
       String.toList "_entity_poly.type",
       String.toList "_entity_poly.pdbx_seq_one_letter_code",
       String.toList "_entity_poly.pdbx_strand_id"] 3 1 2
      ([ld, String.toList "#"].length) [ld, String.toList "#"] ⟨[], []⟩ =
      ⟨[], [⟨['A'], mapCifTypeToChainType (stripQuotes t), stripSeqChars s,
        (stripSeqChars s).length⟩,
       ⟨['B'], mapCifTypeToChainType (stripQuotes t), stripSeqChars s,
        (stripSeqChars s).length⟩]⟩ := by
    rw [dataLoop_cons_tokens _ _ _ _ _ _ _ _ (by simp) hterm hsemi, h0, h6]
    rw [if_pos (by simp)]
    simp only [List.nil_append]
    rw [hrow]
    rw [dataLoop_cons_break _ _ _ _ _ _ _ _ (by simp) (by decide)]
    rfl
  show parseLinesCif (splitLines (joinNl _)) = _
  rw [hsplit, parseLinesCif, hfind]
  simp only
  rw [show jsIndexOf strandIdCol
      [String.toList "_entity_poly.entity_id",
       String.toList "_entity_poly.type",
       String.toList "_entity_poly.pdbx_seq_one_letter_code",
       String.toList "_entity_poly.pdbx_strand_id"] = 3 from by decide,
    show jsIndexOf typeCol
      [String.toList "_entity_poly.entity_id",
       String.toList "_entity_poly.type",
       String.toList "_entity_poly.pdbx_seq_one_letter_code",
       String.toList "_entity_poly.pdbx_strand_id"] = 1 from by decide,
    show jsIndexOf seqCol
      [String.toList "_entity_poly.entity_id",
       String.toList "_entity_poly.type",
       String.toList "_entity_poly.pdbx_seq_one_letter_code",
       String.toList "_entity_poly.pdbx_strand_id"] = 2 from by decide]
  rw [hloop2]
  simp

/-- Witness for `parseChains_multiChain_row_spec`: the synthetic block with
one polymer entity, `pdbx_strand_id = "A,B"`, and sequence `MKTAYIAK`. -/
theorem parseChains_multiChain_row_spec_witness :
    parseChainsFromCif (String.mk (joinNl
      [String.toList "loop_",
       String.toList "_entity_poly.entity_id",
       String.toList "_entity_poly.type",
       String.toList "_entity_poly.pdbx_seq_one_letter_code",
       String.toList "_entity_poly.pdbx_strand_id",
       String.toList "1 polypeptide(L) MKTAYIAK A,B",
       String.toList "#"])) =
      [⟨['A'], ChainType.protein, String.toList "MKTAYIAK", 8⟩,
       ⟨['B'], ChainType.protein, String.toList "MKTAYIAK", 8⟩] := by
  have h := parseChains_multiChain_row_spec
    (String.toList "1") (String.toList "polypeptide(L)")
    (String.toList "MKTAYIAK") (String.toList "1 polypeptide(L) MKTAYIAK A,B")
    (by decide) (by decide) (by decide) (by decide) (by decide) (by decide)
    (by decide) (by decide) (by decide) (by decide)
  rw [h]
  decide

theorem stripSeq_ltrim (l : List Char) :
    stripSeqChars (l.dropWhile isJsWs) = stripSeqChars l := by
  induction l with
  | nil => rfl
  | cons c cs ih =>
    by_cases hw : isJsWs c = true
    · rw [List.dropWhile_cons, if_pos hw, ih]
      show stripSeqChars cs = stripSeqChars (c :: cs)
      rw [stripSeqChars, stripSeqChars, List.filter_cons]
      simp [hw]
    · simp [List.dropWhile_cons, hw]

theorem stripSeq_reverse (l : List Char) :
    stripSeqChars l.reverse = (stripSeqChars l).reverse := by
  unfold stripSeqChars
  exact List.filter_reverse _ _

theorem stripSeq_rtrim (l : List Char) :
    stripSeqChars (rtrimChars l) = stripSeqChars l := by
  rw [rtrimChars, stripSeq_reverse, stripSeq_ltrim, stripSeq_reverse,
    List.reverse_reverse]

theorem stripSeq_trim (l : List Char) :
    stripSeqChars (trimChars l) = stripSeqChars l := by
  rw [trimChars, stripSeq_rtrim, ltrimChars, stripSeq_ltrim]

theorem stripSeq_eq_stripWs (l : List Char)
    (h : ∀ c ∈ l, (c == ';' || c == quoteS || c == quoteD) = false) :
    stripSeqChars l = stripWsChars l := by
  unfold stripSeqChars stripWsChars
  refine List.filter_congr ?_
  intro c hc
  have hcc := h c hc
  simp only [Bool.or_eq_false_iff] at hcc
  obtain ⟨⟨e1, e2⟩, e3⟩ := hcc
  simp [e1, e2, e3]

/-- C7: for every mmCIF data row whose sequence cell is a
semicolon-delimited block split across 3 lines, `parseChainsFromCif`
extracts a single sequence equal to the concatenation of the block's inner
content with all whitespace stripped. -/
theorem parseChains_multilineSeq_spec
    (d t s1 s2 s3 la lb : List Char)
    (ha0 : trimChars la = la)
    (ha1 : la.isEmpty = false)
    (ha2 : startsWithChars la hashTag = false)
    (ha3 : startsWithChars la loopTag = false)
    (ha4 : startsWithChars la underscoreTag = false)
    (ha5 : startsWithChars la [';'] = false)
    (ha6 : tokenizeChars la = [d, t])
    (ha9 : '\n' ∉ la)
    (hb0 : trimChars (';' :: s1) = ';' :: s1)
    (hn1 : '\n' ∉ s1)
    (hs2 : startsWithChars s2 [';'] = false)
    (hn2 : '\n' ∉ s2)
    (hs3 : startsWithChars s3 [';'] = false)
    (hn3 : '\n' ∉ s3)
    (hc0 : trimChars lb = lb)
    (hc1 : lb.isEmpty = false)
    (hc2 : startsWithChars lb hashTag = false)
    (hc3 : startsWithChars lb loopTag = false)
    (hc4 : startsWithChars lb underscoreTag = false)
    (hc5 : startsWithChars lb [';'] = false)
    (hc6 : tokenizeChars lb = [['A']])
    (hc9 : '\n' ∉ lb)
    (h7 : stripQuotes t ≠ [])
    (hseq : s1 ++ trimChars s2 ++ trimChars s3 ≠ [])
    (hclean : ∀ c ∈ s1 ++ s2 ++ s3, (c == ';' || c == quoteS || c == quoteD) = false) :
    parseChainsFromCif (String.mk (joinNl
      [String.toList "loop_",
       String.toList "_entity_poly.entity_id",
       String.toList "_entity_poly.type",
       String.toList "_entity_poly.pdbx_seq_one_letter_code",
       String.toList "_entity_poly.pdbx_strand_id",
       la,
       ';' :: s1,
       s2,
       s3,
       [';'],
       lb,
       String.toList "#"])) =
      [⟨['A'], mapCifTypeToChainType (stripQuotes t),
        stripWsChars (s1 ++ s2 ++ s3), (stripWsChars (s1 ++ s2 ++ s3)).length⟩] := by
  have hlastop : startsWithChars (trimChars la) entityPolyTag = false := by
    rw [ha0, show entityPolyTag = '_' :: String.toList "entity_poly." from by decide]
    refine startsWithChars_false_of_head la '_' _ ?_
    rw [show (['_'] : List Char) = underscoreTag from by decide]
    exact ha4
  have hnb : '\n' ∉ ';' :: s1 := by
    intro hm
    rcases List.mem_cons.mp hm with hm | hm
    · exact absurd hm.symm (by decide)
    · exact hn1 hm
  have hsplit : splitLines (joinNl
      [String.toList "loop_",
       String.toList "_entity_poly.entity_id",
       String.toList "_entity_poly.type",
       String.toList "_entity_poly.pdbx_seq_one_letter_code",
       String.toList "_entity_poly.pdbx_strand_id",
       la, ';' :: s1, s2, s3, [';'], lb, String.toList "#"]) =
      [String.toList "loop_",
       String.toList "_entity_poly.entity_id",
       String.toList "_entity_poly.type",
       String.toList "_entity_poly.pdbx_seq_one_letter_code",
       String.toList "_entity_poly.pdbx_strand_id",
       la, ';' :: s1, s2, s3, [';'], lb, String.toList "#"] := by
    rw [splitLines_joinNl_cons _ _ _ (by decide),
        splitLines_joinNl_cons _ _ _ (by decide),
        splitLines_joinNl_cons _ _ _ (by decide),
        splitLines_joinNl_cons _ _ _ (by decide),
        splitLines_joinNl_cons _ _ _ (by decide),
        splitLines_joinNl_cons _ _ _ ha9,
        splitLines_joinNl_cons _ _ _ hnb,
        splitLines_joinNl_cons _ _ _ hn2,
        splitLines_joinNl_cons _ _ _ hn3,
        splitLines_joinNl_cons _ _ _ (by decide),
        splitLines_joinNl_cons _ _ _ hc9,
        show splitLines (joinNl [String.toList "#"]) = [String.toList "#"] from by decide]
  have hcol : collectEntityPolyCols
      [String.toList "_entity_poly.entity_id",
       String.toList "_entity_poly.type",
       String.toList "_entity_poly.pdbx_seq_one_letter_code",
       String.toList "_entity_poly.pdbx_strand_id",
       la, ';' :: s1, s2, s3, [';'], lb, String.toList "#"] =
      ([String.toList "_entity_poly.entity_id",
        String.toList "_entity_poly.type",
        String.toList "_entity_poly.pdbx_seq_one_letter_code",
        String.toList "_entity_poly.pdbx_strand_id"],
       [la, ';' :: s1, s2, s3, [';'], lb, String.toList "#"]) := by
    rw [collect_cons_true _ _ (by decide), collect_cons_true _ _ (by decide),
        collect_cons_true _ _ (by decide), collect_cons_true _ _ (by decide),
        collectEntityPolyCols_eq_nil
          [la, ';' :: s1, s2, s3, [';'], lb, String.toList "#"] hlastop]
    simp only [Prod.mk.injEq]
    exact ⟨by decide, trivial⟩
  have hfind : findEntityPolyLoop
      [String.toList "loop_",
       String.toList "_entity_poly.entity_id",
       String.toList "_entity_poly.type",
       String.toList "_entity_poly.pdbx_seq_one_letter_code",
       String.toList "_entity_poly.pdbx_strand_id",
       la, ';' :: s1, s2, s3, [';'], lb, String.toList "#"] =
      some ([String.toList "_entity_poly.entity_id",
        String.toList "_entity_poly.type",
        String.toList "_entity_poly.pdbx_seq_one_letter_code",
        String.toList "_entity_poly.pdbx_strand_id"],
       [la, ';' :: s1, s2, s3, [';'], lb, String.toList "#"]) := by
    rw [find_cons_loopTrue _ _ (by decide) (by decide) (by rw [hcol]; rfl), hcol]
  have hterma : isRowTerminator (trimChars la) = false := by
    rw [ha0]
    simp [isRowTerminator, ha1, ha2, ha3, ha4]
  have hsemia : startsWithChars (trimChars la) [';'] = false := by rw [ha0]; exact ha5
  have htermb : isRowTerminator (trimChars (';' :: s1)) = false := by
    rw [hb0]
    simp [isRowTerminator, hashTag, loopTag, underscoreTag, startsWithChars]
  have hsemib : startsWithChars (trimChars (';' :: s1)) [';'] = true := by
    rw [hb0]
    simp [startsWithChars]
  have htermc : isRowTerminator (trimChars lb) = false := by
    rw [hc0]
    simp [isRowTerminator, hc1, hc2, hc3, hc4]
  have hsemic : startsWithChars (trimChars lb) [';'] = false := by rw [hc0]; exact hc5
  have hblock : blockAux s1 [s2, s3, [';'], lb, String.toList "#"] =
      (s1 ++ trimChars s2 ++ trimChars s3, [lb, String.toList "#"]) := by
    simp [blockAux, hs2, hs3,
      show startsWithChars ([';'] : List Char) [';'] = true from by decide,
      rtrimChars, List.append_assoc]
  have hrow : processRow
      [String.toList "_entity_poly.entity_id",
       String.toList "_entity_poly.type",
       String.toList "_entity_poly.pdbx_seq_one_letter_code",
       String.toList "_entity_poly.pdbx_strand_id"] 3 1 2
      ⟨[d, t, s1 ++ trimChars s2 ++ trimChars s3, ['A']], []⟩ =
      ⟨[], [⟨['A'], mapCifTypeToChainType (stripQuotes t),
        stripSeqChars (s1 ++ trimChars s2 ++ trimChars s3),
        (stripSeqChars (s1 ++ trimChars s2 ++ trimChars s3)).length⟩]⟩ := by
    simp only [processRow, List.take, List.drop, List.get?, Option.getD,
      List.length_cons, List.length_nil]
    rw [show jsSplitChar ',' (stripQuotes (['A'] : List Char)) = [['A']] from by decide]
    have hseq2 : s1 ++ (trimChars s2 ++ trimChars s3) ≠ [] := by
      simpa [List.append_assoc] using hseq
    simp [List.filterMap, h7, hseq, hseq2, show ((-1 : Int) < 2) from by decide]
  have hloop2 : dataLoop
      [String.toList "_entity_poly.entity_id",
       String.toList "_entity_poly.type",
       String.toList "_entity_poly.pdbx_seq_one_letter_code",
       String.toList "_entity_poly.pdbx_strand_id"] 3 1 2
      ([la, ';' :: s1, s2, s3, [';'], lb, String.toList "#"].length)
      [la, ';' :: s1, s2, s3, [';'], lb, String.toList "#"] ⟨[], []⟩ =
      ⟨[], [⟨['A'], mapCifTypeToChainType (stripQuotes t),
        stripSeqChars (s1 ++ trimChars s2 ++ trimChars s3),
        (stripSeqChars (s1 ++ trimChars s2 ++ trimChars s3)).length⟩]⟩ := by
    rw [dataLoop_cons_tokens _ _ _ _ _ _ _ _ (by simp) hterma hsemia, ha0, ha6]
    rw [if_neg (by simp)]
    rw [dataLoop_cons_block _ _ _ _ _ _ _ _ (by simp) htermb hsemib, hb0]
    simp only [List.drop_one, List.tail_cons]
    rw [hblock]
    rw [if_neg (by simp)]
    rw [dataLoop_cons_tokens _ _ _ _ _ _ _ _ (by simp) htermc hsemic, hc0, hc6]
    rw [if_pos (by simp)]
    simp only [List.nil_append, List.cons_append, List.append_nil]
    rw [hrow]
    rw [dataLoop_cons_break _ _ _ _ _ _ _ _ (by simp) (by decide)]
    rfl
  have hseqeq : stripSeqChars (s1 ++ trimChars s2 ++ trimChars s3) =
      stripWsChars (s1 ++ s2 ++ s3) := by
    have e1 : stripSeqChars (s1 ++ trimChars s2 ++ trimChars s3) =
        stripSeqChars s1 ++ stripSeqChars s2 ++ stripSeqChars s3 := by
      simp only [stripSeqChars, List.filter_append]
      rw [show List.filter _ (trimChars s2) = stripSeqChars (trimChars s2) from rfl,
          show List.filter _ (trimChars s3) = stripSeqChars (trimChars s3) from rfl,
          stripSeq_trim, stripSeq_trim]
      rfl
    have e2 : stripSeqChars (s1 ++ s2 ++ s3) =
        stripSeqChars s1 ++ stripSeqChars s2 ++ stripSeqChars s3 := by
      simp [stripSeqChars, List.filter_append]
    rw [e1, ← e2, stripSeq_eq_stripWs _ hclean]
  show parseLinesCif (splitLines (joinNl _)) = _
  rw [hsplit, parseLinesCif, hfind]
  simp only
  rw [show jsIndexOf strandIdCol
      [String.toList "_entity_poly.entity_id",
       String.toList "_entity_poly.type",
       String.toList "_entity_poly.pdbx_seq_one_letter_code",
       String.toList "_entity_poly.pdbx_strand_id"] = 3 from by decide,
    show jsIndexOf typeCol
      [String.toList "_entity_poly.entity_id",
       String.toList "_entity_poly.type",
       String.toList "_entity_poly.pdbx_seq_one_letter_code",
       String.toList "_entity_poly.pdbx_strand_id"] = 1 from by decide,
    show jsIndexOf seqCol
      [String.toList "_entity_poly.entity_id",
       String.toList "_entity_poly.type",
       String.toList "_entity_poly.pdbx_seq_one_letter_code",
       String.toList "_entity_poly.pdbx_strand_id"] = 2 from by decide]
  rw [hloop2, hseqeq]
  simp

/-- Witness for `parseChains_multilineSeq_spec`: a sequence block split
across three lines `MKT` / `AYI` / `AKQ` parses to `MKTAYIAKQ`. -/
theorem parseChains_multilineSeq_spec_witness :
    parseChainsFromCif (String.mk (joinNl
      [String.toList "loop_",
       String.toList "_entity_poly.entity_id",
       String.toList "_entity_poly.type",
       String.toList "_entity_poly.pdbx_seq_one_letter_code",
       String.toList "_entity_poly.pdbx_strand_id",
       String.toList "1 polypeptide(L)",
       ';' :: String.toList "MKT",
       String.toList "AYI",
       String.toList "AKQ",
       [';'],
       String.toList "A",
       String.toList "#"])) =
      [⟨['A'], ChainType.protein, String.toList "MKTAYIAKQ", 9⟩] := by
  have h := parseChains_multilineSeq_spec
    (String.toList "1") (String.toList "polypeptide(L)")
    (String.toList "MKT") (String.toList "AYI") (String.toList "AKQ")
    (String.toList "1 polypeptide(L)") (String.toList "A")
    (by decide) (by decide) (by decide) (by decide) (by decide) (by decide)
    (by decide) (by decide) (by decide) (by decide) (by decide) (by decide)
    (by decide) (by decide) (by decide) (by decide) (by decide) (by decide)
    (by decide) (by decide) (by decide) (by decide) (by decide) (by decide)
    (by decide)
  rw [h]
  decide

end ProteinMcp
